import Mathlib

/-!
# Verification of the Anaml Terraform provider's resource mapper

Shallow embedding of the provider's schema-translation layer
(`client/structure.go`, `client/resource_entity.go`, `client/resource_source.go`,
the wire model and role mapping, and the cluster data source) together with
theorems settling the specification's claims about it.

Modelling conventions:
* Go pointers become `Option`, Go slices become `List`, Go `string` becomes
  `String`, Go `int` becomes `Int` (with the 64-bit clamping of
  `strconv.Atoi` modelled explicitly where it matters).
* A Go `interface{}` value that the code only inspects with a string type
  assertion is modelled by the inductive `ConfigValue` (a string, or anything
  else).
* Fallible Go functions returning `(T, error)` become `Except String T`.
* Terraform's `ResourceData` is modelled by typed configuration / state
  records; `d.Set` is a record update, `d.SetId` updates the `id` field.
-/

namespace Anaml

/-- A Go `interface{}` value as far as the mapper inspects it: the code only
ever asks whether it is a `string` (and which one), so every non-string value
collapses to `ConfigValue.other`. -/
inductive ConfigValue where
  | str (s : String)
  | other
deriving Repr, DecidableEq

/-- Wire `Attribute`: a key/value pair. -/
structure Attribute where
  key : String
  value : String
deriving Repr, DecidableEq

/-- Wire `Role`: a bare `adt_type` tag. -/
structure Role where
  adt_type : String
deriving Repr, DecidableEq

/-- Embedding of `validRoles` from the user/roles file: the fixed frontend role vocabulary. -/
def validRoles : List String :=
  [ "admin_attributes"
  , "admin_branch_perms"
  , "admin_groups"
  , "admin_projects"
  , "admin_schedules"
  , "admin_system"
  , "admin_users"
  , "admin_webhooks"
  , "author"
  , "edit_projects"
  , "run_caching"
  , "run_event_store"
  , "run_featuregen"
  , "run_monitoring"
  , "super_user"
  , "view_reports" ]

/-- Embedding of `mapRolesToBackend`: the Go loop appends one `Role` per recognised frontend
token and silently falls through otherwise (the source carries a TODO about
raising an error instead).  The loop is translated element by element. -/
def mapRolesToBackend : List String → List Role
  | [] => []
  | v :: rest =>
    (if v = "admin_attributes" then [Role.mk "adminattributes"]
     else if v = "admin_branch_perms" then [Role.mk "adminbranchperms"]
     else if v = "admin_groups" then [Role.mk "admingroups"]
     else if v = "admin_projects" then [Role.mk "adminprojects"]
     else if v = "admin_schedules" then [Role.mk "adminschedules"]
     else if v = "admin_system" then [Role.mk "adminsystem"]
     else if v = "admin_users" then [Role.mk "adminusers"]
     else if v = "admin_webhooks" then [Role.mk "adminwebhooks"]
     else if v = "author" then [Role.mk "author"]
     else if v = "edit_projects" then [Role.mk "editprojects"]
     else if v = "run_caching" then [Role.mk "runcaching"]
     else if v = "run_event_store" then [Role.mk "runeventstore"]
     else if v = "run_featuregen" then [Role.mk "runfeaturegen"]
     else if v = "run_monitoring" then [Role.mk "runmonitoring"]
     else if v = "super_user" then [Role.mk "superuser"]
     else if v = "view_reports" then [Role.mk "viewreports"]
     else []) ++ mapRolesToBackend rest

/-- Embedding of `mapRolesToFrontend`: inverse direction of the role table, again silently
dropping unrecognised tags.  Note the source compares against the literal
`"runevent_store"` (not `"runeventstore"`). -/
def mapRolesToFrontend : List Role → List String
  | [] => []
  | v :: rest =>
    (if v.adt_type = "adminattributes" then ["admin_attributes"]
     else if v.adt_type = "adminbranchperms" then ["admin_branch_perms"]
     else if v.adt_type = "admingroups" then ["admin_groups"]
     else if v.adt_type = "adminprojects" then ["admin_projects"]
     else if v.adt_type = "adminschedules" then ["admin_schedules"]
     else if v.adt_type = "adminsystem" then ["admin_system"]
     else if v.adt_type = "adminusers" then ["admin_users"]
     else if v.adt_type = "adminwebhooks" then ["admin_webhooks"]
     else if v.adt_type = "author" then ["author"]
     else if v.adt_type = "editprojects" then ["edit_projects"]
     else if v.adt_type = "runcaching" then ["run_caching"]
     else if v.adt_type = "runevent_store" then ["run_event_store"]
     else if v.adt_type = "runfeaturegen" then ["run_featuregen"]
     else if v.adt_type = "runmonitoring" then ["run_monitoring"]
     else if v.adt_type = "superuser" then ["super_user"]
     else if v.adt_type = "viewreports" then ["view_reports"]
     else []) ++ mapRolesToFrontend rest

/-- The frontend→backend role table as a partial lookup, extracted from the
branch structure of `mapRolesToBackend`. -/
def roleToBackend (v : String) : Option String :=
  if v = "admin_attributes" then some "adminattributes"
  else if v = "admin_branch_perms" then some "adminbranchperms"
  else if v = "admin_groups" then some "admingroups"
  else if v = "admin_projects" then some "adminprojects"
  else if v = "admin_schedules" then some "adminschedules"
  else if v = "admin_system" then some "adminsystem"
  else if v = "admin_users" then some "adminusers"
  else if v = "admin_webhooks" then some "adminwebhooks"
  else if v = "author" then some "author"
  else if v = "edit_projects" then some "editprojects"
  else if v = "run_caching" then some "runcaching"
  else if v = "run_event_store" then some "runeventstore"
  else if v = "run_featuregen" then some "runfeaturegen"
  else if v = "run_monitoring" then some "runmonitoring"
  else if v = "super_user" then some "superuser"
  else if v = "view_reports" then some "viewreports"
  else none

/-- The backend→frontend role table as a partial lookup, extracted from the
branch structure of `mapRolesToFrontend` (including its `"runevent_store"`
literal). -/
def roleToFrontend (t : String) : Option String :=
  if t = "adminattributes" then some "admin_attributes"
  else if t = "adminbranchperms" then some "admin_branch_perms"
  else if t = "admingroups" then some "admin_groups"
  else if t = "adminprojects" then some "admin_projects"
  else if t = "adminschedules" then some "admin_schedules"
  else if t = "adminsystem" then some "admin_system"
  else if t = "adminusers" then some "admin_users"
  else if t = "adminwebhooks" then some "admin_webhooks"
  else if t = "author" then some "author"
  else if t = "editprojects" then some "edit_projects"
  else if t = "runcaching" then some "run_caching"
  else if t = "runevent_store" then some "run_event_store"
  else if t = "runfeaturegen" then some "run_featuregen"
  else if t = "runmonitoring" then some "run_monitoring"
  else if t = "superuser" then some "super_user"
  else if t = "viewreports" then some "view_reports"
  else none

/-- Decimal value of a digit run; `none` when the run is empty or contains a
non-digit (the syntax check of Go's `strconv.ParseInt` for base 10). -/
def decVal? (cs : List Char) : Option Nat :=
  if cs = [] then none
  else cs.foldl
    (fun acc c => acc.bind
      (fun n => if c.isDigit then some (10 * n + (c.toNat - 48)) else none))
    (some 0)

/-- Go's `strconv.Atoi` as used with its error ignored: optional sign followed
by decimal digits; on a syntax error the returned value is `0`, and on 64-bit
range overflow the returned value is the clamped `MaxInt64`/`MinInt64`
(`Atoi` returns those values alongside the discarded error). -/
def goAtoi (s : String) : Int :=
  let signed : Bool × List Char :=
    match s.data with
    | '+' :: rest => (false, rest)
    | '-' :: rest => (true, rest)
    | cs => (false, cs)
  match decVal? signed.2 with
  | none => 0
  | some n =>
    if signed.1 then
      if (n : Int) ≤ 2 ^ 63 then -(n : Int) else -(2 ^ 63)
    else
      if (n : Int) ≤ 2 ^ 63 - 1 then (n : Int) else 2 ^ 63 - 1

/-- Embedding of `expandIdentifierList` from `structure.go`: keep the string elements that
are non-empty, and append `strconv.Atoi`'s value for each of them with the
parse error discarded (`vv, _ := strconv.Atoi(...)`). -/
def expandIdentifierList : List ConfigValue → List Int
  | [] => []
  | v :: rest =>
    (match v with
     | .str val => if val ≠ "" then [goAtoi val] else []
     | .other => []) ++ expandIdentifierList rest

/-- Embedding of `identifierList` from `structure.go`: render each integer identifier as its
decimal string via `strconv.Itoa`. -/
def identifierList (ints : List Int) : List String :=
  ints.map (fun v => toString v)

/-- Wire `Entity` record.  `RequiredType` is a `*interface{}` in Go, inspected
only with a string type assertion, hence `Option ConfigValue`. -/
structure Entity where
  id : Int := 0
  name : String := ""
  description : String := ""
  adt_type : String := ""
  defaultColumn : Option String := none
  requiredType : Option ConfigValue := none
  entities : Option (List Int) := none
  labels : List String := []
  attributes : List Attribute := []
deriving Repr

/-- Terraform configuration for the entity resource.  `default_column` is the
raw string `d.Get` returns (empty when unset); `required_type` models
`d.GetOk` (`none` when unset/zero); `entities` is the raw string list;
`labels`/`attributes` carry the results of the `expandLabels`/
`expandAttributes` helpers (whose bodies are outside the given sources). -/
structure EntityConfig where
  name : String := ""
  description : String := ""
  default_column : String := ""
  required_type : Option ConfigValue := none
  entities : List ConfigValue := []
  labels : List String := []
  attributes : List Attribute := []

/-- Embedding of `buildEntity` from `resource_entity.go`: a non-empty `default_column`
selects the `base` variant (forwarding `required_type` when set); otherwise
the `composite` variant is built from the coerced identifier list. -/
def buildEntity (d : EntityConfig) : Entity :=
  let entity : Entity :=
    { name := d.name
      description := d.description
      labels := d.labels
      attributes := d.attributes }
  if d.default_column ≠ "" then
    { entity with
        adt_type := "base"
        defaultColumn := some d.default_column
        requiredType := d.required_type }
  else
    { entity with
        adt_type := "composite"
        entities := some (expandIdentifierList d.entities) }

/-- Terraform state written by `resourceEntityRead`.  `id` is the resource id;
every other field is `Option` (`none` = unset or explicitly cleared with
`d.Set(..., nil)`).  `AttrFlat` is the output type of the `flattenAttributes`
helper, whose body is outside the given sources. -/
structure EntityState (AttrFlat : Type) where
  id : String := ""
  name : Option String := none
  description : Option String := none
  default_column : Option String := none
  required_type : Option String := none
  entities : Option (List String) := none
  labels : Option (List String) := none
  attributeState : Option AttrFlat := none

/-- Embedding of `resourceEntityRead` from `resource_entity.go`.  The client call
`c.GetEntity` is abstracted as its result `resp`; `fA` stands for the
`flattenAttributes` helper.  A `nil` entity with no error clears the id; the
base branch sets `default_column`/`required_type` and clears `entities`; the
composite branch clears `default_column`/`required_type` and sets
`entities`. -/
def resourceEntityRead {AttrFlat : Type} (fA : List Attribute → AttrFlat)
    (resp : Except String (Option Entity)) (st : EntityState AttrFlat) :
    Except String (EntityState AttrFlat) :=
  match resp with
  | .error e => .error e
  | .ok none => .ok { st with id := "" }
  | .ok (some entity) =>
    let st := { st with
      name := some entity.name
      description := some entity.description }
    let st :=
      match entity.defaultColumn with
      | some dc =>
        let st := { st with default_column := some dc }
        let st :=
          match entity.requiredType with
          | some derefed =>
            match derefed with
            | .str s => { st with required_type := some s }
            | .other => { st with required_type := some "Complex Type" }
          | none => { st with required_type := none }
        { st with entities := none }
      | none => st
    let st :=
      match entity.entities with
      | some es =>
        { st with
            default_column := none
            required_type := none
            entities := some (identifierList es) }
      | none => st
    .ok { st with
            labels := some entity.labels
            attributeState := some (fA entity.attributes) }

/-- Wire `LoginCredentialsProviderConfig`. -/
structure LoginCredentialsProviderConfig where
  adt_type : String := ""
  username : String := ""
  password : String := ""
  filepath : String := ""
  passwordSecretProject : String := ""
  passwordSecretId : String := ""
deriving Repr, DecidableEq

/-- Wire `SparkConfig`; the Go `map[string]string` becomes an association
list. -/
structure SparkConfig where
  enableHiveSupport : Bool := false
  hiveMetastoreUrl : String := ""
  additionalSparkProperties : List (String × String) := []
deriving Repr, DecidableEq

/-- Wire `PropertySet`. -/
structure PropertySet where
  id : Option Int := none
  name : String := ""
  additionalSparkProperties : List (String × String) := []
deriving Repr, DecidableEq

/-- Wire `Cluster` record. -/
structure Cluster where
  id : Int := 0
  name : String := ""
  description : String := ""
  adt_type : String := ""
  isPreviewCluster : Bool := false
  anamlServerUrl : String := ""
  sparkServerUrl : String := ""
  credentialsProvider : Option LoginCredentialsProviderConfig := none
  sparkConfig : Option SparkConfig := none
  propertySet : List PropertySet := []
  labels : List String := []
  attributes : List Attribute := []
deriving Repr, DecidableEq

/-- Terraform state written by `dataSourceClusterRead` (the cluster data
source has only `name` and a computed `description`). -/
structure ClusterState where
  id : String := ""
  name : Option String := none
  description : Option String := none
deriving Repr, DecidableEq

/-- Embedding of `dataSourceClusterRead` from the cluster data source.  The client call
`c.FindCluster(name)` is abstracted as its result `resp`.  A `nil` cluster
with no error clears the id; otherwise the id becomes the decimal form of the
backend id and name/description are stored. -/
def dataSourceClusterRead (resp : Except String (Option Cluster))
    (st : ClusterState) : Except String ClusterState :=
  match resp with
  | .error e => .error e
  | .ok none => .ok { st with id := "" }
  | .ok (some cluster) =>
    .ok { st with
            id := toString cluster.id
            name := some cluster.name
            description := some cluster.description }

/-- Wire `FileFormat` record: a `csv`/`orc`/`parquet` tag plus nullable CSV
options. -/
structure FileFormat where
  adt_type : String := ""
  sep : Option String := none
  quoteAll : Option Bool := none
  includeHeader : Option Bool := none
  emptyValue : Option String := none
  compression : Option String := none
  dateFormat : Option String := none
  timestampFormat : Option String := none
  ignoreLeadingWhiteSpace : Option Bool := none
  ignoreTrailingWhiteSpace : Option Bool := none
  lineSep : Option String := none
deriving Repr, DecidableEq

/-- Wire `SecretValueConfig`. -/
structure SecretValueConfig where
  adt_type : String := ""
  secret : String := ""
  filepath : String := ""
  secretProject : String := ""
  secretId : String := ""
deriving Repr, DecidableEq

/-- Wire `SensitiveAttribute`. -/
structure SensitiveAttribute where
  key : String := ""
  valueConfig : Option SecretValueConfig := none
deriving Repr, DecidableEq

/-- Wire `PrincipalId`. -/
structure PrincipalId where
  id : Int := 0
  adt_type : String := ""
deriving Repr, DecidableEq

/-- Wire `MaskingRule` (`filter` or `mask`; `column` only for `mask`). -/
structure MaskingRule where
  adt_type : String := ""
  expression : String := ""
  column : String := ""
deriving Repr, DecidableEq

/-- Wire `AccessRule`. -/
structure AccessRule where
  resource : String := ""
  principals : List PrincipalId := []
  maskingRules : List MaskingRule := []
deriving Repr, DecidableEq

/-- Wire `Source` record: the discriminated union over the ten connector
kinds, flat as on the wire.  Defaults are the Go zero values. -/
structure Source where
  id : Int := 0
  name : String := ""
  description : String := ""
  adt_type : String := ""
  bucket : String := ""
  path : String := ""
  fileFormat : Option FileFormat := none
  endpoint : String := ""
  accessKey : String := ""
  secretKey : String := ""
  url : String := ""
  schema : String := ""
  credentialsProvider : Option LoginCredentialsProviderConfig := none
  database : String := ""
  bootstrapServers : String := ""
  schemaRegistryUrl : String := ""
  kafkaProperties : List SensitiveAttribute := []
  labels : List String := []
  attributes : List Attribute := []
  warehouse : String := ""
  accessRules : List AccessRule := []

/-- Embedding of `expandSingleMap` from `structure.go`, on the typed single-item block
lists Terraform hands over: an empty block list (absent block) is the error
case, otherwise the element at index 0 is returned.  (The Go nil / non-array
/ non-map error cases cannot arise in the typed model.) -/
def expandSingleMap {α : Type} : List α → Except String α
  | [] => .error "Array is empty"
  | x :: _ => .ok x

/-- The file-format keys of an s3/s3a/gcs/local/hdfs block map, as
`composeFileFormat` reads them: `file_format` is always present (required),
each CSV option is `some` exactly when the key holds a value of the asserted
type. -/
structure FileFormatBlock where
  file_format : String := ""
  field_separator : Option String := none
  quote_all : Option Bool := none
  include_header : Option Bool := none
  empty_value : Option String := none
  ignore_leading_whitespace : Option Bool := none
  ignore_trailing_whitespace : Option Bool := none
  compression : Option String := none
  date_format : Option String := none
  timestamp_format : Option String := none
  line_separator : Option String := none
deriving Repr, DecidableEq

/-- Embedding of `composeFileFormat` from `resource_source.go`: start from the bare
`adt_type`, and only for `csv` copy each option key that is present (the Go
`value, ok := d[key].(type)` guards). -/
def composeFileFormat (d : FileFormatBlock) : FileFormat :=
  let fileFormat : FileFormat := { adt_type := d.file_format }
  if d.file_format = "csv" then
    { fileFormat with
        compression := d.compression
        dateFormat := d.date_format
        emptyValue := d.empty_value
        ignoreLeadingWhiteSpace := d.ignore_leading_whitespace
        ignoreTrailingWhiteSpace := d.ignore_trailing_whitespace
        includeHeader := d.include_header
        quoteAll := d.quote_all
        sep := d.field_separator
        timestampFormat := d.timestamp_format
        lineSep := d.line_separator }
  else fileFormat

/-- Config block for `s3` (and `gcs`, which reuses the same schema shape). -/
structure S3Block where
  bucket : String := ""
  path : String := ""
  fileFormat : FileFormatBlock := {}
deriving Repr, DecidableEq

/-- Config block for `s3a`. -/
structure S3ABlock where
  bucket : String := ""
  path : String := ""
  endpoint : String := ""
  access_key : String := ""
  secret_key : String := ""
  fileFormat : FileFormatBlock := {}
deriving Repr, DecidableEq

/-- Config block for `jdbc`; `CredsBlock` is the raw nested
`credentials_provider` block type (its schema is outside the given
sources). -/
structure JdbcBlock (CredsBlock : Type) where
  url : String := ""
  schema : String := ""
  credentials_provider : List CredsBlock := []

/-- Config block for `hive`. -/
structure HiveBlock where
  database : String := ""
deriving Repr, DecidableEq

/-- Config block for `big_query`. -/
structure BigQueryBlock where
  path : String := ""
deriving Repr, DecidableEq

/-- Config block for `local` (and `hdfs`, which reuses the same shape). -/
structure LocalBlock where
  path : String := ""
  fileFormat : FileFormatBlock := {}
deriving Repr, DecidableEq

/-- Config block for `kafka`; `PropBlock` is the raw nested `property` block
type (its schema is outside the given sources). -/
structure KafkaBlock (PropBlock : Type) where
  bootstrap_servers : String := ""
  schema_registry_url : String := ""
  property : List PropBlock := []

/-- Config block for `snowflake`. -/
structure SnowflakeBlock (CredsBlock : Type) where
  url : String := ""
  warehouse : String := ""
  database : String := ""
  schema : String := ""
  credentials_provider : List CredsBlock := []

/-- Config block for a `filter` masking rule. -/
structure FilterBlock where
  expression : String := ""
deriving Repr, DecidableEq

/-- Config block for a `mask` masking rule. -/
structure MaskBlock where
  column : String := ""
  expression : String := ""
deriving Repr, DecidableEq

/-- Config item of the `masking_rule` list: optional single-item `filter` and
`mask` sub-blocks. -/
structure MaskingRuleConfig where
  filter : List FilterBlock := []
  mask : List MaskBlock := []
deriving Repr, DecidableEq

/-- Config item of the `access_rule` list.  `principals` carries the result of
the `expandPrincipalIds` helper (whose body is outside the given sources). -/
structure AccessRuleConfig where
  resource : String := ""
  principals : List PrincipalId := []
  masking_rule : List MaskingRuleConfig := []
deriving Repr, DecidableEq

/-- Embedding of `composeFilterMaskingRule` from `resource_source.go`. -/
def composeFilterMaskingRule (d : FilterBlock) : Except String MaskingRule :=
  .ok { adt_type := "filter", expression := d.expression }

/-- Embedding of `composeMaskMaskingRule` from `resource_source.go`. -/
def composeMaskMaskingRule (d : MaskBlock) : Except String MaskingRule :=
  .ok { adt_type := "mask", column := d.column, expression := d.expression }

/-- Embedding of `expandMaskingRules` from `resource_source.go`: for each config item, a
populated `filter` sub-block contributes a filter rule and a populated `mask`
sub-block a mask rule (both may fire); `expandSingleMap` errors are
swallowed by the `_` in the Go source. -/
def expandMaskingRules : List MaskingRuleConfig → Except String (List MaskingRule)
  | [] => .ok []
  | val :: rest => do
    let fromFilter ←
      match (expandSingleMap val.filter).toOption with
      | some filterMaskingRule => do
        let parsed ← composeFilterMaskingRule filterMaskingRule
        pure [parsed]
      | none => pure []
    let fromMask ←
      match (expandSingleMap val.mask).toOption with
      | some maskMaskingRule => do
        let parsed ← composeMaskMaskingRule maskMaskingRule
        pure [parsed]
      | none => pure []
    let tail ← expandMaskingRules rest
    pure (fromFilter ++ fromMask ++ tail)

/-- Embedding of `expandAccessRules` from `resource_source.go`. -/
def expandAccessRules : List AccessRuleConfig → Except String (List AccessRule)
  | [] => .ok []
  | val :: rest => do
    let maskingRules ← expandMaskingRules val.masking_rule
    let tail ← expandAccessRules rest
    pure ({ resource := val.resource
            principals := val.principals
            maskingRules := maskingRules } :: tail)

/-- Terraform configuration for the source resource: one optional single-item
block list per variant (declared order `s3, s3a, jdbc, hive, big_query, gcs,
local, hdfs, kafka, snowflake`), plus shared fields.  `labels` / `attributes`
carry the results of the `expandLabels` / `expandAttributes` helpers (whose
bodies are outside the given sources). -/
structure SourceConfig (CredsBlock PropBlock : Type) where
  name : String := ""
  description : String := ""
  s3 : List S3Block := []
  s3a : List S3ABlock := []
  jdbc : List (JdbcBlock CredsBlock) := []
  hive : List HiveBlock := []
  big_query : List BigQueryBlock := []
  gcs : List S3Block := []
  local_ : List LocalBlock := []
  hdfs : List LocalBlock := []
  kafka : List (KafkaBlock PropBlock) := []
  snowflake : List (SnowflakeBlock CredsBlock) := []
  labels : List String := []
  attributes : List Attribute := []
  access_rule : List AccessRuleConfig := []

/-- Embedding of `composeSource` from `resource_source.go`: expand the access rules first,
then scan the variant blocks in declared order — the first populated block
(the `if block, _ := expandSingleMap(...); block != nil` chain) builds the
wire record; if none is populated the call fails with
`"Invalid source type"`.  `composeCreds` / `composeSens` stand for the
`composeLoginCredentialsProviderConfig` / `composeSensitiveAttribute`
helpers, whose bodies are outside the given sources. -/
def composeSource {CredsBlock PropBlock : Type}
    (composeCreds : CredsBlock → Except String (Option LoginCredentialsProviderConfig))
    (composeSens : PropBlock → Except String SensitiveAttribute)
    (d : SourceConfig CredsBlock PropBlock) : Except String Source := do
  let accessRules ← expandAccessRules d.access_rule
  if let some s3 := (expandSingleMap d.s3).toOption then
    let fileFormat := composeFileFormat s3.fileFormat
    pure { name := d.name
           description := d.description
           adt_type := "s3"
           bucket := s3.bucket
           path := s3.path
           fileFormat := some fileFormat
           labels := d.labels
           attributes := d.attributes
           accessRules := accessRules }
  else if let some s3a := (expandSingleMap d.s3a).toOption then
    let fileFormat := composeFileFormat s3a.fileFormat
    pure { name := d.name
           description := d.description
           adt_type := "s3a"
           bucket := s3a.bucket
           path := s3a.path
           endpoint := s3a.endpoint
           accessKey := s3a.access_key
           secretKey := s3a.secret_key
           fileFormat := some fileFormat
           labels := d.labels
           attributes := d.attributes
           accessRules := accessRules }
  else if let some jdbc := (expandSingleMap d.jdbc).toOption then do
    let credentialsProviderMap ← expandSingleMap jdbc.credentials_provider
    let credentialsProvider ← composeCreds credentialsProviderMap
    pure { name := d.name
           description := d.description
           adt_type := "jdbc"
           url := jdbc.url
           schema := jdbc.schema
           credentialsProvider := credentialsProvider
           labels := d.labels
           attributes := d.attributes
           accessRules := accessRules }
  else if let some hive := (expandSingleMap d.hive).toOption then
    pure { name := d.name
           description := d.description
           adt_type := "hive"
           database := hive.database
           labels := d.labels
           attributes := d.attributes
           accessRules := accessRules }
  else if let some bigQuery := (expandSingleMap d.big_query).toOption then
    pure { name := d.name
           description := d.description
           adt_type := "bigquery"
           path := bigQuery.path
           labels := d.labels
           attributes := d.attributes
           accessRules := accessRules }
  else if let some gcs := (expandSingleMap d.gcs).toOption then
    let fileFormat := composeFileFormat gcs.fileFormat
    pure { name := d.name
           description := d.description
           adt_type := "gcs"
           bucket := gcs.bucket
           path := gcs.path
           fileFormat := some fileFormat
           labels := d.labels
           attributes := d.attributes
           accessRules := accessRules }
  else if let some local_ := (expandSingleMap d.local_).toOption then
    let fileFormat := composeFileFormat local_.fileFormat
    pure { name := d.name
           description := d.description
           adt_type := "local"
           path := local_.path
           fileFormat := some fileFormat
           labels := d.labels
           attributes := d.attributes
           accessRules := accessRules }
  else if let some hdfs := (expandSingleMap d.hdfs).toOption then
    let fileFormat := composeFileFormat hdfs.fileFormat
    pure { name := d.name
           description := d.description
           adt_type := "hdfs"
           path := hdfs.path
           fileFormat := some fileFormat
           labels := d.labels
           attributes := d.attributes
           accessRules := accessRules }
  else if let some kafka := (expandSingleMap d.kafka).toOption then do
    let sensitives ← kafka.property.mapM composeSens
    pure { name := d.name
           description := d.description
           adt_type := "kafka"
           bootstrapServers := kafka.bootstrap_servers
           schemaRegistryUrl := kafka.schema_registry_url
           kafkaProperties := sensitives
           labels := d.labels
           attributes := d.attributes
           accessRules := accessRules }
  else if let some snowflake := (expandSingleMap d.snowflake).toOption then do
    let credentialsProviderMap ← expandSingleMap snowflake.credentials_provider
    let credentialsProvider ← composeCreds credentialsProviderMap
    pure { name := d.name
           description := d.description
           adt_type := "snowflake"
           url := snowflake.url
           schema := snowflake.schema
           warehouse := snowflake.warehouse
           database := snowflake.database
           credentialsProvider := credentialsProvider
           labels := d.labels
           attributes := d.attributes
           accessRules := accessRules }
  else
    .error "Invalid source type"

/-- CSV option keys that `parseFileFormat` adds to the flattened map when the
wire format is `csv`; each value mirrors the nullable wire field. -/
structure CsvFlat where
  compression : Option String := none
  date_format : Option String := none
  empty_value : Option String := none
  field_separator : Option String := none
  ignore_leading_whitespace : Option Bool := none
  ignore_trailing_whitespace : Option Bool := none
  include_header : Option Bool := none
  quote_all : Option Bool := none
  timestamp_format : Option String := none
  line_separator : Option String := none
deriving Repr, DecidableEq

/-- Flattened file-format keys: `file_format` is always written; the CSV keys
are present exactly when the wire type is `csv`. -/
structure FileFormatFlat where
  file_format : String := ""
  csvFields : Option CsvFlat := none
deriving Repr, DecidableEq

/-- Embedding of `parseFileFormat` from `resource_source.go`: always emit `file_format`,
and for `csv` also emit every CSV option key (explicitly null when the wire
field is absent). -/
def parseFileFormat (fileFormat : FileFormat) : FileFormatFlat :=
  if fileFormat.adt_type = "csv" then
    { file_format := fileFormat.adt_type
      csvFields := some
        { compression := fileFormat.compression
          date_format := fileFormat.dateFormat
          empty_value := fileFormat.emptyValue
          field_separator := fileFormat.sep
          ignore_leading_whitespace := fileFormat.ignoreLeadingWhiteSpace
          ignore_trailing_whitespace := fileFormat.ignoreTrailingWhiteSpace
          include_header := fileFormat.includeHeader
          quote_all := fileFormat.quoteAll
          timestamp_format := fileFormat.timestampFormat
          line_separator := fileFormat.lineSep } }
  else { file_format := fileFormat.adt_type }

/-- Flattened `s3`/`gcs` block (`parseS3Source` output). -/
structure S3Flat where
  bucket : String := ""
  path : String := ""
  fileFormat : FileFormatFlat := {}
deriving Repr, DecidableEq

/-- Flattened `s3a` block (`parseS3ASource` output). -/
structure S3AFlat where
  bucket : String := ""
  path : String := ""
  endpoint : String := ""
  access_key : String := ""
  secret_key : String := ""
  fileFormat : FileFormatFlat := {}
deriving Repr, DecidableEq

/-- Flattened `local`/`hdfs` block (`parseLocalSource` output). -/
structure LocalFlat where
  path : String := ""
  fileFormat : FileFormatFlat := {}
deriving Repr, DecidableEq

/-- Flattened `jdbc` block; `CredsFlat` is the output type of the
`parseLoginCredentialsProviderConfig` helper (outside the given sources). -/
structure JdbcFlat (CredsFlat : Type) where
  url : String := ""
  schema : String := ""
  credentials_provider : List CredsFlat := []

/-- Flattened `big_query` block. -/
structure BigQueryFlat where
  path : String := ""
deriving Repr, DecidableEq

/-- Flattened `hive` block. -/
structure HiveFlat where
  database : String := ""
deriving Repr, DecidableEq

/-- Flattened `kafka` block; `SensFlat` is the output type of the
`parseSensitiveAttribute` helper (outside the given sources). -/
structure KafkaFlat (SensFlat : Type) where
  bootstrap_servers : String := ""
  schema_registry_url : String := ""
  property : List SensFlat := []

/-- Flattened `snowflake` block. -/
structure SnowflakeFlat (CredsFlat : Type) where
  url : String := ""
  warehouse : String := ""
  database : String := ""
  schema : String := ""
  credentials_provider : List CredsFlat := []

/-- Embedding of `parseS3Source` from `resource_source.go` (used for both s3 and gcs).
The Go nil-source check cannot fire here (the caller has already checked);
dereferencing a `nil` `FileFormat` pointer would crash the Go code, modelled
as an error. -/
def parseS3Source (source : Source) : Except String S3Flat :=
  match source.fileFormat with
  | none => .error "nil FileFormat dereference"
  | some ff =>
    .ok { bucket := source.bucket
          path := source.path
          fileFormat := parseFileFormat ff }

/-- Embedding of `parseS3ASource` from `resource_source.go`. -/
def parseS3ASource (source : Source) : Except String S3AFlat :=
  match source.fileFormat with
  | none => .error "nil FileFormat dereference"
  | some ff =>
    .ok { bucket := source.bucket
          path := source.path
          endpoint := source.endpoint
          access_key := source.accessKey
          secret_key := source.secretKey
          fileFormat := parseFileFormat ff }

/-- Embedding of `parseLocalSource` from `resource_source.go` (used for local and HDFS). -/
def parseLocalSource (source : Source) : Except String LocalFlat :=
  match source.fileFormat with
  | none => .error "nil FileFormat dereference"
  | some ff =>
    .ok { path := source.path
          fileFormat := parseFileFormat ff }

/-- Embedding of `parseJDBCSource` from `resource_source.go`; `parseCreds` stands for the
`parseLoginCredentialsProviderConfig` helper. -/
def parseJDBCSource {CredsFlat : Type}
    (parseCreds : Option LoginCredentialsProviderConfig → Except String CredsFlat)
    (source : Source) : Except String (JdbcFlat CredsFlat) := do
  let credentialsProvider ← parseCreds source.credentialsProvider
  pure { url := source.url
         schema := source.schema
         credentials_provider := [credentialsProvider] }

/-- Embedding of `parseBigQuerySource` from `resource_source.go`. -/
def parseBigQuerySource (source : Source) : Except String BigQueryFlat :=
  .ok { path := source.path }

/-- Embedding of `parseHiveSource` from `resource_source.go`. -/
def parseHiveSource (source : Source) : Except String HiveFlat :=
  .ok { database := source.database }

/-- Embedding of `parseKafkaSource` from `resource_source.go`; `parseSens` stands for the
`parseSensitiveAttribute` helper. -/
def parseKafkaSource {SensFlat : Type}
    (parseSens : SensitiveAttribute → Except String SensFlat)
    (source : Source) : Except String (KafkaFlat SensFlat) := do
  let sensitives ← source.kafkaProperties.mapM parseSens
  pure { bootstrap_servers := source.bootstrapServers
         schema_registry_url := source.schemaRegistryUrl
         property := sensitives }

/-- Embedding of `parseSnowflakeSource` from `resource_source.go`. -/
def parseSnowflakeSource {CredsFlat : Type}
    (parseCreds : Option LoginCredentialsProviderConfig → Except String CredsFlat)
    (source : Source) : Except String (SnowflakeFlat CredsFlat) := do
  let credentialsProvider ← parseCreds source.credentialsProvider
  pure { url := source.url
         warehouse := source.warehouse
         database := source.database
         schema := source.schema
         credentials_provider := [credentialsProvider] }

/-- Flattened `filter` nested block. -/
structure FilterFlat where
  expression : String := ""
deriving Repr, DecidableEq

/-- Flattened `mask` nested block. -/
structure MaskFlat where
  column : String := ""
  expression : String := ""
deriving Repr, DecidableEq

/-- One flattened masking-rule map: the `filter` key is present exactly for a
filter rule and the `mask` key exactly for a mask rule. -/
structure MaskingRuleFlat where
  filter : Option FilterFlat := none
  mask : Option MaskFlat := none
deriving Repr, DecidableEq

/-- Embedding of `flatternMaskingRules` from `resource_source.go` (spelling as in the
source): one map per rule, keyed by the rule kind. -/
def flatternMaskingRules (maskingRules : List MaskingRule) : List MaskingRuleFlat :=
  maskingRules.map (fun maskingRule =>
    { filter :=
        if maskingRule.adt_type = "filter" then
          some { expression := maskingRule.expression }
        else none
      mask :=
        if maskingRule.adt_type = "mask" then
          some { column := maskingRule.column
                 expression := maskingRule.expression }
        else none })

/-- Flattened `access_rule` item; `PrincFlat` is the output type of the
`flattenPrincipalIds` helper (outside the given sources). -/
structure AccessRuleFlat (PrincFlat : Type) where
  resource : String := ""
  principals : PrincFlat
  masking_rule : List MaskingRuleFlat := []

/-- Embedding of `flattenAccessRules` from `resource_source.go`; `fP` stands for the
`flattenPrincipalIds` helper. -/
def flattenAccessRules {PrincFlat : Type}
    (fP : List PrincipalId → PrincFlat)
    (accessRules : List AccessRule) : List (AccessRuleFlat PrincFlat) :=
  accessRules.map (fun accessRule =>
    { resource := accessRule.resource
      principals := fP accessRule.principals
      masking_rule := flatternMaskingRules accessRule.maskingRules })

/-- Terraform state written by `resourceSourceRead`: the id, the shared
fields, and one optional block per variant (`none` = not populated). -/
structure SourceState (CredsFlat SensFlat AttrFlat PrincFlat : Type) where
  id : String := ""
  name : Option String := none
  description : Option String := none
  s3 : Option S3Flat := none
  s3a : Option S3AFlat := none
  gcs : Option S3Flat := none
  local_ : Option LocalFlat := none
  hdfs : Option LocalFlat := none
  jdbc : Option (JdbcFlat CredsFlat) := none
  hive : Option HiveFlat := none
  big_query : Option BigQueryFlat := none
  kafka : Option (KafkaFlat SensFlat) := none
  snowflake : Option (SnowflakeFlat CredsFlat) := none
  labels : Option (List String) := none
  attributeState : Option AttrFlat := none
  access_rule : Option (List (AccessRuleFlat PrincFlat)) := none

/-- The discriminator values `resourceSourceRead` dispatches on. -/
def knownSourceTags : List String :=
  ["s3", "s3a", "gcs", "local", "hdfs", "jdbc", "hive", "bigquery",
   "kafka", "snowflake"]

/-- Embedding of `resourceSourceRead` from `resource_source.go`.  The client call
`c.GetSource` is abstracted as its result `resp`; `parseCreds`, `parseSens`,
`fA`, `fP` stand for the helpers whose bodies are outside the given sources.
A `nil` source with no error clears the id.  Otherwise name/description are
stored, then ten independent `if source.Type == tag` blocks each parse and
store their variant; a discriminator matching none of them is silently
skipped (there is no fall-through error), and the shared trailing fields are
stored. -/
def resourceSourceRead {CredsFlat SensFlat AttrFlat PrincFlat : Type}
    (parseCreds : Option LoginCredentialsProviderConfig → Except String CredsFlat)
    (parseSens : SensitiveAttribute → Except String SensFlat)
    (fA : List Attribute → AttrFlat)
    (fP : List PrincipalId → PrincFlat)
    (resp : Except String (Option Source))
    (st : SourceState CredsFlat SensFlat AttrFlat PrincFlat) :
    Except String (SourceState CredsFlat SensFlat AttrFlat PrincFlat) :=
  match resp with
  | .error e => .error e
  | .ok none => .ok { st with id := "" }
  | .ok (some source) => do
    let st := { st with
      name := some source.name
      description := some source.description }
    let st ←
      if source.adt_type = "s3" then do
        let s3 ← parseS3Source source
        pure { st with s3 := some s3 }
      else pure st
    let st ←
      if source.adt_type = "s3a" then do
        let s3a ← parseS3ASource source
        pure { st with s3a := some s3a }
      else pure st
    let st ←
      if source.adt_type = "gcs" then do
        let gcs ← parseS3Source source
        pure { st with gcs := some gcs }
      else pure st
    let st ←
      if source.adt_type = "local" then do
        let local_ ← parseLocalSource source
        pure { st with local_ := some local_ }
      else pure st
    let st ←
      if source.adt_type = "hdfs" then do
        let hdfs ← parseLocalSource source
        pure { st with hdfs := some hdfs }
      else pure st
    let st ←
      if source.adt_type = "jdbc" then do
        let jdbc ← parseJDBCSource parseCreds source
        pure { st with jdbc := some jdbc }
      else pure st
    let st ←
      if source.adt_type = "hive" then do
        let hive ← parseHiveSource source
        pure { st with hive := some hive }
      else pure st
    let st ←
      if source.adt_type = "bigquery" then do
        let bigQuery ← parseBigQuerySource source
        pure { st with big_query := some bigQuery }
      else pure st
    let st ←
      if source.adt_type = "kafka" then do
        let kafka ← parseKafkaSource parseSens source
        pure { st with kafka := some kafka }
      else pure st
    let st ←
      if source.adt_type = "snowflake" then do
        let snowflake ← parseSnowflakeSource parseCreds source
        pure { st with snowflake := some snowflake }
      else pure st
    pure { st with
             labels := some source.labels
             attributeState := some (fA source.attributes)
             access_rule := some (flattenAccessRules fP source.accessRules) }

/-- Returns 1 when a single-item block list is populated, else 0. -/
def blockCount {α : Type} : List α → Nat
  | [] => 0
  | _ :: _ => 1

/-- Number of populated variant blocks in a source configuration. -/
def populatedCount {CredsBlock PropBlock : Type}
    (d : SourceConfig CredsBlock PropBlock) : Nat :=
  blockCount d.s3 + blockCount d.s3a + blockCount d.jdbc + blockCount d.hive +
  blockCount d.big_query + blockCount d.gcs + blockCount d.local_ +
  blockCount d.hdfs + blockCount d.kafka + blockCount d.snowflake

/-- The discriminator of the first populated variant block, in the declared
scan order of `composeSource`. -/
def firstVariantTag {CredsBlock PropBlock : Type}
    (d : SourceConfig CredsBlock PropBlock) : Option String :=
  match d.s3 with
  | _ :: _ => some "s3"
  | [] =>
  match d.s3a with
  | _ :: _ => some "s3a"
  | [] =>
  match d.jdbc with
  | _ :: _ => some "jdbc"
  | [] =>
  match d.hive with
  | _ :: _ => some "hive"
  | [] =>
  match d.big_query with
  | _ :: _ => some "bigquery"
  | [] =>
  match d.gcs with
  | _ :: _ => some "gcs"
  | [] =>
  match d.local_ with
  | _ :: _ => some "local"
  | [] =>
  match d.hdfs with
  | _ :: _ => some "hdfs"
  | [] =>
  match d.kafka with
  | _ :: _ => some "kafka"
  | [] =>
  match d.snowflake with
  | _ :: _ => some "snowflake"
  | [] => none

/-- The configuration with every variant block other than the first populated
one cleared; the identity when no block is populated. -/
def restrictToFirst {CredsBlock PropBlock : Type}
    (d : SourceConfig CredsBlock PropBlock) : SourceConfig CredsBlock PropBlock :=
  match d.s3 with
  | _ :: _ =>
    { d with s3a := [], jdbc := [], hive := [], big_query := [], gcs := [],
             local_ := [], hdfs := [], kafka := [], snowflake := [] }
  | [] =>
  match d.s3a with
  | _ :: _ =>
    { d with jdbc := [], hive := [], big_query := [], gcs := [],
             local_ := [], hdfs := [], kafka := [], snowflake := [] }
  | [] =>
  match d.jdbc with
  | _ :: _ =>
    { d with hive := [], big_query := [], gcs := [],
             local_ := [], hdfs := [], kafka := [], snowflake := [] }
  | [] =>
  match d.hive with
  | _ :: _ =>
    { d with big_query := [], gcs := [],
             local_ := [], hdfs := [], kafka := [], snowflake := [] }
  | [] =>
  match d.big_query with
  | _ :: _ =>
    { d with gcs := [], local_ := [], hdfs := [], kafka := [], snowflake := [] }
  | [] =>
  match d.gcs with
  | _ :: _ =>
    { d with local_ := [], hdfs := [], kafka := [], snowflake := [] }
  | [] =>
  match d.local_ with
  | _ :: _ =>
    { d with hdfs := [], kafka := [], snowflake := [] }
  | [] =>
  match d.hdfs with
  | _ :: _ =>
    { d with kafka := [], snowflake := [] }
  | [] =>
  match d.kafka with
  | _ :: _ =>
    { d with snowflake := [] }
  | [] => d

/-- The S3 block of the specification's composition example:
`bucket "b", path "p", file_format "csv", field_separator ","`, all other
keys absent. -/
def exampleS3Block : S3Block :=
  { bucket := "b"
    path := "p"
    fileFormat := { file_format := "csv", field_separator := some "," } }

/-- The source configuration of the specification's composition example. -/
def exampleS3Config : SourceConfig Unit Unit :=
  { name := "my_source", s3 := [exampleS3Block] }

/-- A source configuration with two populated variant blocks (`s3` and
`hive`), used to witness the first-populated-block-wins theorem. -/
def twoBlockConfig : SourceConfig Unit Unit :=
  { name := "s", s3 := [exampleS3Block], hive := [{ database := "db" }] }

/-- A source configuration with no populated variant block. -/
def noBlockConfig : SourceConfig Unit Unit := { name := "s" }

/-- A trivial stand-in for the compose-side credentials helper, used only to
instantiate witnesses. -/
def unitComposeCreds : Unit → Except String (Option LoginCredentialsProviderConfig) :=
  fun _ => .ok none

/-- A trivial stand-in for the compose-side sensitive-attribute helper, used
only to instantiate witnesses. -/
def unitComposeSens : Unit → Except String SensitiveAttribute :=
  fun _ => .ok {}

/-- A wire source whose discriminator matches none of the known variant
tags. -/
def mysterySource : Source :=
  { name := "m", description := "d", adt_type := "mystery" }

/-- A backend entity of the composite kind with identifiers `[1, 2, 3]`. -/
def compositeEntity : Entity :=
  { name := "e", description := "d", adt_type := "composite"
    entities := some [1, 2, 3] }

/-- An entity configuration populating the base variant. -/
def baseEntityConfig : EntityConfig :=
  { name := "e", default_column := "col" }

/-- Trivial stand-in for the flatten-side credentials helper (witnesses
only). -/
def unitParseCreds : Option LoginCredentialsProviderConfig → Except String Unit :=
  fun _ => .ok ()

/-- Trivial stand-in for the flatten-side sensitive-attribute helper
(witnesses only). -/
def unitParseSens : SensitiveAttribute → Except String Unit :=
  fun _ => .ok ()

/-- Trivial stand-in for the `flattenAttributes` helper (witnesses only). -/
def unitFlattenAttributes : List Attribute → Unit := fun _ => ()

/-- Trivial stand-in for the `flattenPrincipalIds` helper (witnesses only). -/
def unitFlattenPrincipals : List PrincipalId → Unit := fun _ => ()

/-- Specification form of `expandMaskingRules`' successful result: the rules
contributed by each config item, in order. -/
def maskingRulesOf : List MaskingRuleConfig → List MaskingRule
  | [] => []
  | val :: rest =>
    (match val.filter with
     | f :: _ => [{ adt_type := "filter", expression := f.expression }]
     | [] => []) ++
    (match val.mask with
     | m :: _ => [{ adt_type := "mask", column := m.column
                    expression := m.expression }]
     | [] => []) ++ maskingRulesOf rest

/-- Specification form of `expandAccessRules`' successful result. -/
def accessRulesOf : List AccessRuleConfig → List AccessRule
  | [] => []
  | val :: rest =>
    { resource := val.resource
      principals := val.principals
      maskingRules := maskingRulesOf val.masking_rule } :: accessRulesOf rest

/-! ## Theorems -/

set_option maxHeartbeats 1600000 in
lemma mapRolesToBackend_step (v : String) :
    (if v = "admin_attributes" then [Role.mk "adminattributes"]
     else if v = "admin_branch_perms" then [Role.mk "adminbranchperms"]
     else if v = "admin_groups" then [Role.mk "admingroups"]
     else if v = "admin_projects" then [Role.mk "adminprojects"]
     else if v = "admin_schedules" then [Role.mk "adminschedules"]
     else if v = "admin_system" then [Role.mk "adminsystem"]
     else if v = "admin_users" then [Role.mk "adminusers"]
     else if v = "admin_webhooks" then [Role.mk "adminwebhooks"]
     else if v = "author" then [Role.mk "author"]
     else if v = "edit_projects" then [Role.mk "editprojects"]
     else if v = "run_caching" then [Role.mk "runcaching"]
     else if v = "run_event_store" then [Role.mk "runeventstore"]
     else if v = "run_featuregen" then [Role.mk "runfeaturegen"]
     else if v = "run_monitoring" then [Role.mk "runmonitoring"]
     else if v = "super_user" then [Role.mk "superuser"]
     else if v = "view_reports" then [Role.mk "viewreports"]
     else []) = ((roleToBackend v).map Role.mk).toList := by
  by_cases h1 : v = "admin_attributes"
  · simp only [h1]; rfl
  by_cases h2 : v = "admin_branch_perms"
  · simp only [h2]; rfl
  by_cases h3 : v = "admin_groups"
  · simp only [h3]; rfl
  by_cases h4 : v = "admin_projects"
  · simp only [h4]; rfl
  by_cases h5 : v = "admin_schedules"
  · simp only [h5]; rfl
  by_cases h6 : v = "admin_system"
  · simp only [h6]; rfl
  by_cases h7 : v = "admin_users"
  · simp only [h7]; rfl
  by_cases h8 : v = "admin_webhooks"
  · simp only [h8]; rfl
  by_cases h9 : v = "author"
  · simp only [h9]; rfl
  by_cases h10 : v = "edit_projects"
  · simp only [h10]; rfl
  by_cases h11 : v = "run_caching"
  · simp only [h11]; rfl
  by_cases h12 : v = "run_event_store"
  · simp only [h12]; rfl
  by_cases h13 : v = "run_featuregen"
  · simp only [h13]; rfl
  by_cases h14 : v = "run_monitoring"
  · simp only [h14]; rfl
  by_cases h15 : v = "super_user"
  · simp only [h15]; rfl
  by_cases h16 : v = "view_reports"
  · simp only [h16]; rfl
  unfold roleToBackend
  simp only [if_neg h1, if_neg h2, if_neg h3, if_neg h4, if_neg h5, if_neg h6,
    if_neg h7, if_neg h8, if_neg h9, if_neg h10, if_neg h11, if_neg h12,
    if_neg h13, if_neg h14, if_neg h15, if_neg h16]
  rfl

set_option maxHeartbeats 1600000 in
lemma mapRolesToFrontend_step (v : Role) :
    (if v.adt_type = "adminattributes" then ["admin_attributes"]
     else if v.adt_type = "adminbranchperms" then ["admin_branch_perms"]
     else if v.adt_type = "admingroups" then ["admin_groups"]
     else if v.adt_type = "adminprojects" then ["admin_projects"]
     else if v.adt_type = "adminschedules" then ["admin_schedules"]
     else if v.adt_type = "adminsystem" then ["admin_system"]
     else if v.adt_type = "adminusers" then ["admin_users"]
     else if v.adt_type = "adminwebhooks" then ["admin_webhooks"]
     else if v.adt_type = "author" then ["author"]
     else if v.adt_type = "editprojects" then ["edit_projects"]
     else if v.adt_type = "runcaching" then ["run_caching"]
     else if v.adt_type = "runevent_store" then ["run_event_store"]
     else if v.adt_type = "runfeaturegen" then ["run_featuregen"]
     else if v.adt_type = "runmonitoring" then ["run_monitoring"]
     else if v.adt_type = "superuser" then ["super_user"]
     else if v.adt_type = "viewreports" then ["view_reports"]
     else []) = (roleToFrontend v.adt_type).toList := by
  by_cases h1 : v.adt_type = "adminattributes"
  · simp only [h1]; rfl
  by_cases h2 : v.adt_type = "adminbranchperms"
  · simp only [h2]; rfl
  by_cases h3 : v.adt_type = "admingroups"
  · simp only [h3]; rfl
  by_cases h4 : v.adt_type = "adminprojects"
  · simp only [h4]; rfl
  by_cases h5 : v.adt_type = "adminschedules"
  · simp only [h5]; rfl
  by_cases h6 : v.adt_type = "adminsystem"
  · simp only [h6]; rfl
  by_cases h7 : v.adt_type = "adminusers"
  · simp only [h7]; rfl
  by_cases h8 : v.adt_type = "adminwebhooks"
  · simp only [h8]; rfl
  by_cases h9 : v.adt_type = "author"
  · simp only [h9]; rfl
  by_cases h10 : v.adt_type = "editprojects"
  · simp only [h10]; rfl
  by_cases h11 : v.adt_type = "runcaching"
  · simp only [h11]; rfl
  by_cases h12 : v.adt_type = "runevent_store"
  · simp only [h12]; rfl
  by_cases h13 : v.adt_type = "runfeaturegen"
  · simp only [h13]; rfl
  by_cases h14 : v.adt_type = "runmonitoring"
  · simp only [h14]; rfl
  by_cases h15 : v.adt_type = "superuser"
  · simp only [h15]; rfl
  by_cases h16 : v.adt_type = "viewreports"
  · simp only [h16]; rfl
  unfold roleToFrontend
  simp only [if_neg h1, if_neg h2, if_neg h3, if_neg h4, if_neg h5, if_neg h6,
    if_neg h7, if_neg h8, if_neg h9, if_neg h10, if_neg h11, if_neg h12,
    if_neg h13, if_neg h14, if_neg h15, if_neg h16]
  rfl

lemma mapRolesToBackend_eq_filterMap (frontend : List String) :
    mapRolesToBackend frontend =
      frontend.filterMap (fun v => (roleToBackend v).map Role.mk) := by
  induction frontend with
  | nil => rfl
  | cons v rest ih =>
    rw [mapRolesToBackend, mapRolesToBackend_step v, ih, List.filterMap_cons]
    cases h : roleToBackend v <;> simp [h]

lemma mapRolesToFrontend_eq_filterMap (backend : List Role) :
    mapRolesToFrontend backend =
      backend.filterMap (fun r => roleToFrontend r.adt_type) := by
  induction backend with
  | nil => rfl
  | cons v rest ih =>
    rw [mapRolesToFrontend, mapRolesToFrontend_step v, ih, List.filterMap_cons]
    cases h : roleToFrontend v.adt_type <;> simp [h]

/-- C9: both role-mapping directions are exactly the order-preserving partial
lookup over the fixed table — an unrecognised token contributes nothing and
raises no error, and the output is never longer than the input. -/
theorem roleMapping_drops_unrecognised_tokens (frontend : List String)
    (backend : List Role) :
    mapRolesToBackend frontend =
      frontend.filterMap (fun v => (roleToBackend v).map Role.mk) ∧
    (mapRolesToBackend frontend).length ≤ frontend.length ∧
    mapRolesToFrontend backend =
      backend.filterMap (fun r => roleToFrontend r.adt_type) ∧
    (mapRolesToFrontend backend).length ≤ backend.length := by
  refine ⟨mapRolesToBackend_eq_filterMap frontend, ?_,
          mapRolesToFrontend_eq_filterMap backend, ?_⟩
  · rw [mapRolesToBackend_eq_filterMap]
    exact List.length_filterMap_le _ _
  · rw [mapRolesToFrontend_eq_filterMap]
    exact List.length_filterMap_le _ _

/-- C1: the vocabulary token `run_event_store` does NOT survive the round
trip: `mapRolesToBackend` emits the backend tag `runeventstore`, but
`mapRolesToFrontend` only recognises the misspelled `runevent_store`, so the
role is silently dropped and the round trip returns `[]`. -/
theorem runEventStore_roundTrip_lost :
    "run_event_store" ∈ validRoles ∧
    mapRolesToBackend ["run_event_store"] = [Role.mk "runeventstore"] ∧
    mapRolesToFrontend (mapRolesToBackend ["run_event_store"]) = [] :=
  ⟨by decide, rfl, rfl⟩

/-- C5 counterexample: a non-empty, non-numeric string entry is not skipped —
`expandIdentifierList` appends `0` (the value `strconv.Atoi` returns with its
discarded error), so the output is `[0]`, not the `[]` the claim requires. -/
theorem expandIdentifierList_counterexample :
    expandIdentifierList [ConfigValue.str "abc"] = [0] ∧
    ([0] : List Int) ≠ [] :=
  ⟨rfl, by decide⟩

/-- C5 (amended): `expandIdentifierList` silently skips entries that are the
empty string or are not strings, and every remaining (non-empty string) entry
contributes exactly one integer in the original order, without error — the
value `strconv.Atoi` returns with its error discarded (the parsed value when
parseable, `0` on a syntax error, the clamped 64-bit bound on overflow). -/
theorem expandIdentifierList_amended (configured : List ConfigValue) :
    expandIdentifierList configured =
      configured.filterMap (fun v =>
        match v with
        | .str s => if s = "" then none else some (goAtoi s)
        | .other => none) := by
  induction configured with
  | nil => rfl
  | cons v rest ih =>
    cases v with
    | str s =>
      by_cases h : s = "" <;>
        simp [expandIdentifierList, h, ih, List.filterMap_cons]
    | other => simp [expandIdentifierList, ih, List.filterMap_cons]

/-- C10: `buildEntity` always populates exactly one variant — a non-empty
`default_column` yields the `base` variant (default column set, entities
cleared), otherwise the `composite` variant (entities set, default column and
required type cleared); the discriminator is always `base` or `composite`. -/
theorem buildEntity_exactly_one_variant (d : EntityConfig) :
    ((buildEntity d).adt_type = "base" ∨ (buildEntity d).adt_type = "composite") ∧
    (d.default_column ≠ "" →
      (buildEntity d).adt_type = "base" ∧
      (buildEntity d).defaultColumn = some d.default_column ∧
      (buildEntity d).entities = none) ∧
    (d.default_column = "" →
      (buildEntity d).adt_type = "composite" ∧
      (buildEntity d).entities = some (expandIdentifierList d.entities) ∧
      (buildEntity d).defaultColumn = none ∧
      (buildEntity d).requiredType = none) := by
  by_cases h : d.default_column = "" <;> simp [buildEntity, h]

/-- Witness for C10 at a base-variant configuration. -/
theorem buildEntity_exactly_one_variant_witness :
    (buildEntity baseEntityConfig).adt_type = "base" ∧
    (buildEntity baseEntityConfig).defaultColumn = some "col" ∧
    (buildEntity baseEntityConfig).entities = none :=
  (buildEntity_exactly_one_variant baseEntityConfig).2.1 (by decide)

lemma identifierList_one_two_three :
    identifierList [1, 2, 3] = ["1", "2", "3"] := rfl

/-- C7: flattening a composite backend entity with identifiers `[1, 2, 3]`
stores `entities = ["1", "2", "3"]` (decimal strings, in order) and
explicitly clears both `default_column` and `required_type`. -/
theorem entityRead_composite_example {AttrFlat : Type}
    (fA : List Attribute → AttrFlat) (st : EntityState AttrFlat) (e : Entity)
    (h1 : e.defaultColumn = none) (h2 : e.entities = some [1, 2, 3]) :
    resourceEntityRead fA (.ok (some e)) st =
      .ok { st with
              name := some e.name
              description := some e.description
              default_column := none
              required_type := none
              entities := some ["1", "2", "3"]
              labels := some e.labels
              attributeState := some (fA e.attributes) } := by
  simp [resourceEntityRead, h1, h2, identifierList_one_two_three]

/-- Witness for C7 at a concrete composite entity. -/
theorem entityRead_composite_example_witness :
    resourceEntityRead (fun _ : List Attribute => ()) (.ok (some compositeEntity))
        ({ id := "9" } : EntityState Unit) =
      .ok { id := "9"
            name := some "e"
            description := some "d"
            default_column := none
            required_type := none
            entities := some ["1", "2", "3"]
            labels := some []
            attributeState := some () } :=
  entityRead_composite_example _ _ compositeEntity rfl rfl

/-- C6: on every Read whose client call reports the object missing (`nil`
object, no error) — entity resource, source resource, cluster data source —
the id is cleared to the empty string and the operation succeeds. -/
theorem read_notFound_clears_id {CF SF AF PF : Type}
    (parseCreds : Option LoginCredentialsProviderConfig → Except String CF)
    (parseSens : SensitiveAttribute → Except String SF)
    (fA : List Attribute → AF) (fP : List PrincipalId → PF)
    (fAe : List Attribute → AF)
    (stE : EntityState AF) (stS : SourceState CF SF AF PF) (stC : ClusterState) :
    resourceEntityRead fAe (.ok none) stE = .ok { stE with id := "" } ∧
    resourceSourceRead parseCreds parseSens fA fP (.ok none) stS =
      .ok { stS with id := "" } ∧
    dataSourceClusterRead (.ok none) stC = .ok { stC with id := "" } :=
  ⟨rfl, rfl, rfl⟩

/-- C8: composing the example S3 configuration
`bucket "b", path "p", file_format "csv", field_separator ","` yields the
wire record with discriminator `s3`, bucket `b`, path `p`, and a `csv` file
format whose separator is `","` while every other CSV sub-field is
explicitly null. -/
theorem composeSource_s3_csv_example :
    composeSource unitComposeCreds unitComposeSens exampleS3Config =
      .ok { name := "my_source"
            description := ""
            adt_type := "s3"
            bucket := "b"
            path := "p"
            fileFormat := some
              { adt_type := "csv"
                sep := some ","
                quoteAll := none
                includeHeader := none
                emptyValue := none
                compression := none
                dateFormat := none
                timestampFormat := none
                ignoreLeadingWhiteSpace := none
                ignoreTrailingWhiteSpace := none
                lineSep := none }
            labels := []
            attributes := []
            accessRules := [] } := rfl

lemma expandMaskingRules_eq (l : List MaskingRuleConfig) :
    expandMaskingRules l = .ok (maskingRulesOf l) := by
  induction l with
  | nil => rfl
  | cons val rest ih =>
    cases hf : val.filter <;> cases hm : val.mask <;>
      simp [expandMaskingRules, maskingRulesOf, hf, hm, ih, expandSingleMap,
        composeFilterMaskingRule, composeMaskMaskingRule, Except.toOption] <;>
      rfl

lemma expandAccessRules_eq (l : List AccessRuleConfig) :
    expandAccessRules l = .ok (accessRulesOf l) := by
  induction l with
  | nil => rfl
  | cons val rest ih =>
    simp [expandAccessRules, accessRulesOf, expandMaskingRules_eq, ih]
    rfl

/-- C2 counterexample: reading a wire source whose discriminator `mystery`
matches no known variant tag SUCCEEDS (no `UnknownVariantTag` or any other
error) and leaves every one of the ten variant blocks unset — refuting the
claim that such a read always fails. -/
theorem sourceRead_unknown_tag_counterexample :
    mysterySource.adt_type ∉ knownSourceTags ∧
    resourceSourceRead unitParseCreds unitParseSens unitFlattenAttributes
        unitFlattenPrincipals (.ok (some mysterySource))
        ({} : SourceState Unit Unit Unit Unit) =
      .ok { name := some "m"
            description := some "d"
            s3 := none
            s3a := none
            gcs := none
            local_ := none
            hdfs := none
            jdbc := none
            hive := none
            big_query := none
            kafka := none
            snowflake := none
            labels := some []
            attributeState := some ()
            access_rule := some [] } :=
  ⟨by decide, rfl⟩

/-- C2 (amended): an unknown discriminator is silently ignored by
`resourceSourceRead` — the read succeeds, stores the shared fields, and
populates none of the ten variant blocks (each keeps its prior state); no
`UnknownVariantTag` error exists in the code. -/
theorem sourceRead_unknown_tag_ignored {CF SF AF PF : Type}
    (parseCreds : Option LoginCredentialsProviderConfig → Except String CF)
    (parseSens : SensitiveAttribute → Except String SF)
    (fA : List Attribute → AF) (fP : List PrincipalId → PF)
    (source : Source) (st : SourceState CF SF AF PF)
    (h : source.adt_type ∉ knownSourceTags) :
    resourceSourceRead parseCreds parseSens fA fP (.ok (some source)) st =
      .ok { st with
              name := some source.name
              description := some source.description
              labels := some source.labels
              attributeState := some (fA source.attributes)
              access_rule := some (flattenAccessRules fP source.accessRules) } := by
  simp only [knownSourceTags, List.mem_cons, List.not_mem_nil, or_false,
    not_or] at h
  obtain ⟨h1, h2, h3, h4, h5, h6, h7, h8, h9, h10⟩ := h
  simp [resourceSourceRead, h1, h2, h3, h4, h5, h6, h7, h8, h9, h10]
  rfl

/-- Witness for the amended C2 at the concrete unknown-tag source. -/
theorem sourceRead_unknown_tag_ignored_witness :
    resourceSourceRead unitParseCreds unitParseSens unitFlattenAttributes
        unitFlattenPrincipals (.ok (some mysterySource))
        ({ id := "7" } : SourceState Unit Unit Unit Unit) =
      .ok { id := "7"
            name := some "m"
            description := some "d"
            labels := some []
            attributeState := some ()
            access_rule := some [] } :=
  sourceRead_unknown_tag_ignored _ _ _ _ mysterySource _ (by decide)

/-- C4: when none of the ten variant blocks is populated, `composeSource`
returns the `"Invalid source type"` error and no wire record. -/
theorem composeSource_no_variant_fails {CB PB : Type}
    (composeCreds : CB → Except String (Option LoginCredentialsProviderConfig))
    (composeSens : PB → Except String SensitiveAttribute)
    (d : SourceConfig CB PB)
    (h : d.s3 = [] ∧ d.s3a = [] ∧ d.jdbc = [] ∧ d.hive = [] ∧
         d.big_query = [] ∧ d.gcs = [] ∧ d.local_ = [] ∧ d.hdfs = [] ∧
         d.kafka = [] ∧ d.snowflake = []) :
    composeSource composeCreds composeSens d = .error "Invalid source type" := by
  obtain ⟨h1, h2, h3, h4, h5, h6, h7, h8, h9, h10⟩ := h
  simp [composeSource, expandAccessRules_eq, h1, h2, h3, h4, h5, h6, h7, h8,
    h9, h10, expandSingleMap, Except.toOption]
  rfl

/-- Witness for C4 at a configuration with no populated block. -/
theorem composeSource_no_variant_fails_witness :
    composeSource unitComposeCreds unitComposeSens noBlockConfig =
      .error "Invalid source type" :=
  composeSource_no_variant_fails _ _ noBlockConfig
    ⟨rfl, rfl, rfl, rfl, rfl, rfl, rfl, rfl, rfl, rfl⟩

lemma except_bind_ok {ε α β : Type} (a : α) (f : α → Except ε β) :
    (Except.ok a : Except ε α) >>= f = f a := rfl

lemma except_bind_error {ε α β : Type} (e : ε) (f : α → Except ε β) :
    (Except.error e : Except ε α) >>= f = .error e := rfl

lemma except_pure {ε α : Type} (a : α) :
    (pure a : Except ε α) = .ok a := rfl

/-- C3: with two or more variant blocks populated, `composeSource` behaves
exactly as if only the first populated block (in the declared order s3, s3a,
jdbc, hive, big_query, gcs, local, hdfs, kafka, snowflake) were present —
fields of the other populated blocks are never merged in — and any produced
wire record carries that first block's discriminator. -/
theorem composeSource_first_block_wins {CB PB : Type}
    (composeCreds : CB → Except String (Option LoginCredentialsProviderConfig))
    (composeSens : PB → Except String SensitiveAttribute)
    (d : SourceConfig CB PB)
    (h : 2 ≤ populatedCount d) :
    composeSource composeCreds composeSens d =
      composeSource composeCreds composeSens (restrictToFirst d) ∧
    ∀ s, composeSource composeCreds composeSens d = .ok s →
      some s.adt_type = firstVariantTag d := by
  clear h
  cases hs3 : d.s3 with
  | cons b bs =>
    refine ⟨?_, ?_⟩
    · simp [composeSource, restrictToFirst, hs3, expandSingleMap, Except.toOption]
    · intro s hs
      simp [composeSource, hs3, expandSingleMap, Except.toOption,
        expandAccessRules_eq, except_bind_ok, except_pure] at hs
      subst hs
      simp [firstVariantTag, hs3]
  | nil =>
  cases hs3a : d.s3a with
  | cons b bs =>
    refine ⟨?_, ?_⟩
    · simp [composeSource, restrictToFirst, hs3, hs3a, expandSingleMap,
        Except.toOption]
    · intro s hs
      simp [composeSource, hs3, hs3a, expandSingleMap, Except.toOption,
        expandAccessRules_eq, except_bind_ok, except_pure] at hs
      subst hs
      simp [firstVariantTag, hs3, hs3a]
  | nil =>
  cases hjd : d.jdbc with
  | cons b bs =>
    refine ⟨?_, ?_⟩
    · simp [composeSource, restrictToFirst, hs3, hs3a, hjd, expandSingleMap,
        Except.toOption]
    · intro s hs
      cases hcp : b.credentials_provider with
      | nil =>
        simp [composeSource, hs3, hs3a, hjd, hcp, expandSingleMap,
          Except.toOption, expandAccessRules_eq, except_bind_ok,
          except_bind_error, except_pure] at hs
      | cons c cs =>
        cases hcc : composeCreds c with
        | error e =>
          simp [composeSource, hs3, hs3a, hjd, hcp, hcc, expandSingleMap,
            Except.toOption, expandAccessRules_eq, except_bind_ok,
            except_bind_error, except_pure] at hs
        | ok cp =>
          simp [composeSource, hs3, hs3a, hjd, hcp, hcc, expandSingleMap,
            Except.toOption, expandAccessRules_eq, except_bind_ok,
            except_bind_error, except_pure] at hs
          subst hs
          simp [firstVariantTag, hs3, hs3a, hjd]
  | nil =>
  cases hhv : d.hive with
  | cons b bs =>
    refine ⟨?_, ?_⟩
    · simp [composeSource, restrictToFirst, hs3, hs3a, hjd, hhv,
        expandSingleMap, Except.toOption]
    · intro s hs
      simp [composeSource, hs3, hs3a, hjd, hhv, expandSingleMap,
        Except.toOption, expandAccessRules_eq, except_bind_ok,
        except_pure] at hs
      subst hs
      simp [firstVariantTag, hs3, hs3a, hjd, hhv]
  | nil =>
  cases hbq : d.big_query with
  | cons b bs =>
    refine ⟨?_, ?_⟩
    · simp [composeSource, restrictToFirst, hs3, hs3a, hjd, hhv, hbq,
        expandSingleMap, Except.toOption]
    · intro s hs
      simp [composeSource, hs3, hs3a, hjd, hhv, hbq, expandSingleMap,
        Except.toOption, expandAccessRules_eq, except_bind_ok,
        except_pure] at hs
      subst hs
      simp [firstVariantTag, hs3, hs3a, hjd, hhv, hbq]
  | nil =>
  cases hgc : d.gcs with
  | cons b bs =>
    refine ⟨?_, ?_⟩
    · simp [composeSource, restrictToFirst, hs3, hs3a, hjd, hhv, hbq, hgc,
        expandSingleMap, Except.toOption]
    · intro s hs
      simp [composeSource, hs3, hs3a, hjd, hhv, hbq, hgc, expandSingleMap,
        Except.toOption, expandAccessRules_eq, except_bind_ok,
        except_pure] at hs
      subst hs
      simp [firstVariantTag, hs3, hs3a, hjd, hhv, hbq, hgc]
  | nil =>
  cases hlc : d.local_ with
  | cons b bs =>
    refine ⟨?_, ?_⟩
    · simp [composeSource, restrictToFirst, hs3, hs3a, hjd, hhv, hbq, hgc,
        hlc, expandSingleMap, Except.toOption]
    · intro s hs
      simp [composeSource, hs3, hs3a, hjd, hhv, hbq, hgc, hlc,
        expandSingleMap, Except.toOption, expandAccessRules_eq,
        except_bind_ok, except_pure] at hs
      subst hs
      simp [firstVariantTag, hs3, hs3a, hjd, hhv, hbq, hgc, hlc]
  | nil =>
  cases hhd : d.hdfs with
  | cons b bs =>
    refine ⟨?_, ?_⟩
    · simp [composeSource, restrictToFirst, hs3, hs3a, hjd, hhv, hbq, hgc,
        hlc, hhd, expandSingleMap, Except.toOption]
    · intro s hs
      simp [composeSource, hs3, hs3a, hjd, hhv, hbq, hgc, hlc, hhd,
        expandSingleMap, Except.toOption, expandAccessRules_eq,
        except_bind_ok, except_pure] at hs
      subst hs
      simp [firstVariantTag, hs3, hs3a, hjd, hhv, hbq, hgc, hlc, hhd]
  | nil =>
  cases hkf : d.kafka with
  | cons b bs =>
    refine ⟨?_, ?_⟩
    · simp [composeSource, restrictToFirst, hs3, hs3a, hjd, hhv, hbq, hgc,
        hlc, hhd, hkf, expandSingleMap, Except.toOption]
    · intro s hs
      cases hmp : List.mapM.loop composeSens b.property [] with
      | error e =>
        simp [composeSource, hs3, hs3a, hjd, hhv, hbq, hgc, hlc, hhd, hkf,
          hmp, expandSingleMap, Except.toOption, expandAccessRules_eq,
          except_bind_ok, except_bind_error, except_pure] at hs
      | ok sens =>
        simp [composeSource, hs3, hs3a, hjd, hhv, hbq, hgc, hlc, hhd, hkf,
          hmp, expandSingleMap, Except.toOption, expandAccessRules_eq,
          except_bind_ok, except_bind_error, except_pure] at hs
        subst hs
        simp [firstVariantTag, hs3, hs3a, hjd, hhv, hbq, hgc, hlc, hhd, hkf]
  | nil =>
  cases hsf : d.snowflake with
  | cons b bs =>
    refine ⟨?_, ?_⟩
    · simp [composeSource, restrictToFirst, hs3, hs3a, hjd, hhv, hbq, hgc,
        hlc, hhd, hkf, hsf, expandSingleMap, Except.toOption]
    · intro s hs
      cases hcp : b.credentials_provider with
      | nil =>
        simp [composeSource, hs3, hs3a, hjd, hhv, hbq, hgc, hlc, hhd, hkf,
          hsf, hcp, expandSingleMap, Except.toOption, expandAccessRules_eq,
          except_bind_ok, except_bind_error, except_pure] at hs
      | cons c cs =>
        cases hcc : composeCreds c with
        | error e =>
          simp [composeSource, hs3, hs3a, hjd, hhv, hbq, hgc, hlc, hhd, hkf,
            hsf, hcp, hcc, expandSingleMap, Except.toOption,
            expandAccessRules_eq, except_bind_ok, except_bind_error,
            except_pure] at hs
        | ok cp =>
          simp [composeSource, hs3, hs3a, hjd, hhv, hbq, hgc, hlc, hhd, hkf,
            hsf, hcp, hcc, expandSingleMap, Except.toOption,
            expandAccessRules_eq, except_bind_ok, except_bind_error,
            except_pure] at hs
          subst hs
          simp [firstVariantTag, hs3, hs3a, hjd, hhv, hbq, hgc, hlc, hhd,
            hkf, hsf]
  | nil =>
  refine ⟨?_, ?_⟩
  · simp [restrictToFirst, hs3, hs3a, hjd, hhv, hbq, hgc, hlc, hhd, hkf, hsf]
  · intro s hs
    simp [composeSource, hs3, hs3a, hjd, hhv, hbq, hgc, hlc, hhd, hkf, hsf,
      expandSingleMap, Except.toOption, expandAccessRules_eq, except_bind_ok,
      except_bind_error, except_pure] at hs

/-- Witness for C3 at a configuration populating both `s3` and `hive`. -/
theorem composeSource_first_block_wins_witness :
    2 ≤ populatedCount twoBlockConfig ∧
    composeSource unitComposeCreds unitComposeSens twoBlockConfig =
      composeSource unitComposeCreds unitComposeSens
        (restrictToFirst twoBlockConfig) :=
  ⟨by decide,
   (composeSource_first_block_wins unitComposeCreds unitComposeSens
      twoBlockConfig (by decide)).1⟩

end Anaml
